import Mathlib

/-!
# Project Pumpkin — verification of the ingestion, query and cleanup layers

A shallow embedding of the parts of the Project Pumpkin code base that the
checked properties talk about:

* the HAR post-processing (`parseHttpResponseCodes`, the failed-request
  extraction of `getFailedRequestsByTestId`) from `tests/test-helpers.js`
  and `src/database/queries.js`;
* the navigation-timing computation of `collectPerformanceMetrics`;
* the relational state (`test_runs`, `url_tests`, `http_responses`,
  `resource_types`) with the counter trigger `update_test_run_counts` of
  `db/init.sql`, and the application writers `createTestRun`,
  `insertDomainTest`, `updateTestRun` of `src/database/ingest.js`;
* the read-side query functions of `src/database/queries.js` together with
  the HTTP handlers of `src/routes/api.js` and the `/health` endpoint;
* the orphan-directory reconciler of `src/database/cleanup.js`.

Database statements run through a connection pool whose `query` helper
returns `null` instead of raising on any failure; fallibility of individual
SQL statements is modelled by explicit boolean oracles (one per statement),
and the absence of a connection by a `connected : Bool` parameter, exactly
mirroring the `isDatabaseConnected()` guards in the source.
-/

namespace Pumpkin

/-- Lifecycle status of a test run (`test_runs.status`). -/
inductive RunStatus where
  | RUNNING
  | COMPLETED
  | PARTIAL
  | FAILED
deriving DecidableEq, Repr

/-- Status of one URL test (`url_tests.status`). -/
inductive TestStatus where
  | PASSED
  | FAILED
  | TIMEOUT
  | ERROR
deriving DecidableEq, Repr

/-! ## HAR model

A parsed HAR file, at the shape the two consumers inspect.  JavaScript
truthiness of `harData.log && harData.log.entries` is the `hasEntries`
flag; truthiness of `entry.response` is `hasResponse`.  A missing or
syntactically malformed file is `Option.none` at the use sites (both
consumers wrap the read + `JSON.parse` in try/catch). -/

/-- One HAR entry: presence of a `response` object, its `status`, and the
optional `request.url`. -/
structure HarEntry where
  hasResponse : Bool
  status : Int
  requestUrl : Option String
deriving DecidableEq, Repr

/-- The `log` object of a HAR file. -/
structure HarLog where
  hasEntries : Bool
  entries : List HarEntry
deriving DecidableEq, Repr

/-- `statusCodeCounts[statusCode] = (statusCodeCounts[statusCode] || 0) + 1`
on an association-list histogram: bump an existing key in place, append a
missing key at the end (JavaScript object-key insertion order). -/
def bumpCode : List (Int × Nat) → Int → List (Int × Nat)
  | [], c => [(c, 1)]
  | p :: t, c => if p.1 = c then (p.1, p.2 + 1) :: t else p :: bumpCode t c

/-- Body of the `forEach` in `parseHttpResponseCodes`: count the entry when
`entry.response && entry.response.status` is truthy and the code is
positive (`-1` entries of aborted requests are dropped). -/
def countCodeStep (m : List (Int × Nat)) (e : HarEntry) : List (Int × Nat) :=
  if e.hasResponse ∧ e.status ≠ 0 ∧ e.status > 0 then bumpCode m e.status else m

/-- `parseHttpResponseCodes` from `tests/test-helpers.js`: reads a HAR file
and counts entries per HTTP status code, skipping entries without a truthy
`response.status` and those with non-positive codes; any read or parse
error yields the empty histogram.  Total by construction. -/
def parseHttpResponseCodes (har : Option HarLog) : List (Int × Nat) :=
  match har with
  | none => []
  | some log =>
    if log.hasEntries then log.entries.foldl countCodeStep []
    else []

/-- Count recorded for code `c` in a histogram (`0` when the key is absent). -/
def lookupCount (m : List (Int × Nat)) (c : Int) : Nat :=
  match m.find? (fun p => p.1 = c) with
  | some p => p.2
  | none => 0

/-- The entries of `log` that `parseHttpResponseCodes` counts under code `c`. -/
def countedEntries (log : HarLog) (c : Int) : List HarEntry :=
  log.entries.filter (fun e => e.hasResponse ∧ e.status ≠ 0 ∧ e.status > 0 ∧ e.status = c)

/-! ## Failed-request extraction (`getFailedRequestsByTestId`) -/

/-- One row of the failed-request inventory. -/
structure FailedRequest where
  failedRequestUrl : String
  statusCode : Int
  statusCategory : String
deriving DecidableEq, Repr

/-- The category branch of `getFailedRequestsByTestId`:
`Client Error` for 400–499, `Server Error` for ≥ 500, else the initial
`Unknown`. -/
def statusCategoryOf (c : Int) : String :=
  if 400 ≤ c ∧ c < 500 then "Client Error"
  else if 500 ≤ c then "Server Error"
  else "Unknown"

/-- `entry.request?.url || 'Unknown URL'`. -/
def requestUrlOf (e : HarEntry) : String :=
  match e.requestUrl with
  | none => "Unknown URL"
  | some u => if u = "" then "Unknown URL" else u

/-- The HAR loop of `getFailedRequestsByTestId`: one output row per entry
whose `response.status` is at least 400, in the order the entries appear in
the HAR file. -/
def extractFailedRequests (log : HarLog) : List FailedRequest :=
  if log.hasEntries then
    log.entries.filterMap
      (fun e =>
        if e.hasResponse ∧ 400 ≤ e.status then
          some ⟨requestUrlOf e, e.status, statusCategoryOf e.status⟩
        else none)
  else []

/-! ## Navigation timing (`collectPerformanceMetrics`) -/

/-- The `PerformanceNavigationTiming` fields read in the page.  The browser
reports double-precision millisecond timestamps; the sign behaviour of
their differences, which is all the checked property concerns, is captured
with integers. -/
structure NavTiming where
  domainLookupStart : Int
  domainLookupEnd : Int
  connectStart : Int
  connectEnd : Int
  secureConnectionStart : Int
  requestStart : Int
  responseStart : Int
  responseEnd : Int
  domContentLoadedEventStart : Int
  domContentLoadedEventEnd : Int
  domInteractive : Int
  fetchStart : Int
  loadEventEnd : Int
  transferSize : Int
  encodedBodySize : Int
  decodedBodySize : Int
deriving DecidableEq, Repr

/-- The `navigation` object built by `collectPerformanceMetrics`. -/
structure NavMetrics where
  dnsLookup : Int
  tcpConnection : Int
  tlsNegotiation : Int
  timeToFirstByte : Int
  responseTime : Int
  domContentLoaded : Int
  domInteractive : Int
  pageLoadTime : Int
  transferSize : Int
  encodedBodySize : Int
  decodedBodySize : Int
deriving DecidableEq, Repr

/-- The navigation part of `collectPerformanceMetrics` in
`tests/test-helpers.js`: raw differences of the timing fields, with only
`tlsNegotiation` guarded by `secureConnectionStart > 0`. -/
def computeNavMetrics (t : NavTiming) : NavMetrics where
  dnsLookup := t.domainLookupEnd - t.domainLookupStart
  tcpConnection := t.connectEnd - t.connectStart
  tlsNegotiation :=
    if t.secureConnectionStart > 0 then t.connectEnd - t.secureConnectionStart else 0
  timeToFirstByte := t.responseStart - t.requestStart
  responseTime := t.responseEnd - t.responseStart
  domContentLoaded := t.domContentLoadedEventEnd - t.domContentLoadedEventStart
  domInteractive := t.domInteractive - t.fetchStart
  pageLoadTime := t.loadEventEnd - t.fetchStart
  transferSize := t.transferSize
  encodedBodySize := t.encodedBodySize
  decodedBodySize := t.decodedBodySize

/-- One `PerformanceResourceTiming` entry as read by the page script. -/
structure ResourceTiming where
  initiatorType : String
  transferSize : Int
  encodedBodySize : Int
deriving DecidableEq, Repr

/-- Aggregate resource statistics built by `collectPerformanceMetrics`. -/
structure ResourceMetrics where
  total : Nat
  byType : List (String × Nat)
  totalTransferSize : Int
  totalEncodedSize : Int
deriving DecidableEq, Repr

/-- `metrics.resources.byType[type]++` with `type = initiatorType || 'other'`. -/
def bumpType : List (String × Nat) → String → List (String × Nat)
  | [], ty => [(ty, 1)]
  | p :: t, ty => if p.1 = ty then (p.1, p.2 + 1) :: t else p :: bumpType t ty

/-- The resource loop of `collectPerformanceMetrics`. -/
def collectResourceMetrics (resources : List ResourceTiming) : ResourceMetrics :=
  resources.foldl
    (fun acc r =>
      { acc with
        byType := bumpType acc.byType (if r.initiatorType = "" then "other" else r.initiatorType)
        totalTransferSize := acc.totalTransferSize + r.transferSize
        totalEncodedSize := acc.totalEncodedSize + r.encodedBodySize })
    { total := resources.length, byType := [], totalTransferSize := 0, totalEncodedSize := 0 }

/-- The full measurement object returned by `collectPerformanceMetrics`:
`navigation` is `null` when `performance.getEntriesByType('navigation')` is
empty. -/
structure Metrics where
  navigation : Option NavMetrics
  resources : ResourceMetrics
deriving DecidableEq, Repr

/-- `collectPerformanceMetrics` from `tests/test-helpers.js`. -/
def collectPerformanceMetrics (nav : Option NavTiming) (resources : List ResourceTiming) :
    Metrics where
  navigation := nav.map computeNavMetrics
  resources := collectResourceMetrics resources

/-! ## Relational state

The four tables the checked properties mention, at the columns the
properties inspect.  SERIAL ids are modelled as integers chosen by the
insert operations; `ON DELETE CASCADE` plays no role because the
application code under scrutiny never deletes rows. -/

/-- One `test_runs` row. -/
structure RunRow where
  id : Int
  total_urls : Nat
  parallel_workers : Nat
  passed_count : Nat
  failed_count : Nat
  status : RunStatus
  duration_ms : Option Int
  notes : Option String
deriving DecidableEq, Repr

/-- One `url_tests` row (`domain_tests` before the rename migration).
`test_run_id` is declared `INTEGER NOT NULL REFERENCES test_runs(id)`, so a
`none` here can never be committed; it models the application handing
`null` to the INSERT. -/
structure UrlTestRow where
  id : Nat
  test_run_id : Option Int
  status : TestStatus
  url : String
  screenshot_path : String
  har_path : String
  http_response_codes : List (Int × Nat)
  resources_by_type : List (String × Nat)
deriving DecidableEq, Repr

/-- One normalized `http_responses` row. -/
structure HttpResponseRow where
  url_test_id : Nat
  status_code : Int
  response_count : Nat
deriving DecidableEq, Repr

/-- One normalized `resource_types` row. -/
structure ResourceTypeRow where
  url_test_id : Nat
  resource_type : String
  resource_count : Nat
deriving DecidableEq, Repr

/-- The database state: the four tables. -/
structure DBState where
  runs : List RunRow
  url_tests : List UrlTestRow
  http_responses : List HttpResponseRow
  resource_types : List ResourceTypeRow
deriving DecidableEq, Repr

/-- The empty database, as produced by `db/init.sql`. -/
def emptyDB : DBState := ⟨[], [], [], []⟩

/-- The trigger function `update_test_run_counts` of `db/init.sql`, fired
`AFTER INSERT ON url_tests FOR EACH ROW`: bump `passed_count` of the
owning run when the new row's status is `PASSED`, otherwise bump
`failed_count`. -/
def update_test_run_counts (runs : List RunRow) (newRow : UrlTestRow) : List RunRow :=
  runs.map fun r =>
    if newRow.test_run_id = some r.id then
      if newRow.status = TestStatus.PASSED then { r with passed_count := r.passed_count + 1 }
      else { r with failed_count := r.failed_count + 1 }
    else r

/-- Constraint check of the `url_tests` INSERT: `test_run_id` is
`NOT NULL` and a foreign key into `test_runs`. -/
def urlTestInsertOk (db : DBState) (row : UrlTestRow) : Bool :=
  match row.test_run_id with
  | none => false
  | some rid => db.runs.any fun r => r.id = rid

/-- The `INSERT INTO url_tests` statement together with its trigger:
`none` when a constraint is violated (the statement raises and commits
nothing). -/
def insertUrlTestRow (db : DBState) (row : UrlTestRow) : Option DBState :=
  if urlTestInsertOk db row then
    some { db with
      url_tests := db.url_tests ++ [row]
      runs := update_test_run_counts db.runs row }
  else none

/-- Per-statement success oracle for one `insertDomainTest` call: whether
the main INSERT, the `http_responses` INSERT and the `resource_types`
INSERT each succeed at the database. -/
structure StmtOracle where
  mainOk : Bool
  httpOk : Bool
  resOk : Bool
deriving DecidableEq, Repr

/-- `insertHttpResponses` from `src/database/ingest.js`: returns without
touching the database when the histogram is empty or the test id is the
falsy `0`; otherwise runs a single multi-row INSERT whose failure is caught
and swallowed. -/
def insertHttpResponses (db : DBState) (stmtOk : Bool) (testId : Nat)
    (codes : List (Int × Nat)) : DBState :=
  if codes.isEmpty ∨ testId = 0 then db
  else if stmtOk then
    { db with
      http_responses := db.http_responses ++ codes.map fun p => ⟨testId, p.1, p.2⟩ }
  else db

/-- `insertResourceTypes` from `src/database/ingest.js`, analogous to
`insertHttpResponses`. -/
def insertResourceTypes (db : DBState) (stmtOk : Bool) (testId : Nat)
    (types : List (String × Nat)) : DBState :=
  if types.isEmpty ∨ testId = 0 then db
  else if stmtOk then
    { db with
      resource_types := db.resource_types ++ types.map fun p => ⟨testId, p.1, p.2⟩ }
  else db

/-- `insertDomainTest` from `src/database/ingest.js`: bail out when the
database is not connected; run the `url_tests` INSERT through the pool's
`query` helper (any error, constraint violations included, is caught and
turns into a `null` result); only on its success run the two satellite
INSERTs, each through its own independent `query` call.  There is no
`BEGIN`/`COMMIT` around the three statements. -/
def insertDomainTest (db : DBState) (connected : Bool) (o : StmtOracle)
    (row : UrlTestRow) : DBState × Option Nat :=
  if connected then
    match (if o.mainOk then insertUrlTestRow db row else none) with
    | none => (db, none)
    | some db1 =>
      let db2 := insertHttpResponses db1 o.httpOk row.id row.http_response_codes
      let db3 := insertResourceTypes db2 o.resOk row.id row.resources_by_type
      (db3, some row.id)
  else (db, none)

/-- The id `RETURNING id` yields for a fresh `test_runs` INSERT: SERIAL
values exceed every id already present. -/
def nextRunId (db : DBState) : Int :=
  (db.runs.map RunRow.id).foldr max 0 + 1

/-- `createTestRun` from `src/database/ingest.js`: bail out when not
connected; otherwise INSERT a run with status `RUNNING` and zero counters
(the column defaults), returning its id, or `none` when the statement
fails. -/
def createTestRun (db : DBState) (connected stmtOk : Bool) (totalUrls workers : Nat)
    (notes : Option String) : DBState × Option Int :=
  if connected then
    if stmtOk then
      let rid := nextRunId db
      ({ db with
          runs := db.runs ++
            [{ id := rid, total_urls := totalUrls, parallel_workers := workers,
               passed_count := 0, failed_count := 0, status := RunStatus.RUNNING,
               duration_ms := none, notes := notes }] },
       some rid)
    else (db, none)
  else (db, none)

/-- `updateTestRun` from `src/database/ingest.js`: bail out when not
connected or when `testRunId` is falsy; otherwise run
`UPDATE test_runs SET status = $1, duration_ms = $2 WHERE id = $3`
unconditionally — the current status of the run is never consulted. -/
def updateTestRun (db : DBState) (connected : Bool) (testRunId : Int)
    (st : RunStatus) (dur : Option Int) : DBState × Bool :=
  if connected ∧ testRunId ≠ 0 then
    ({ db with
        runs := db.runs.map fun r =>
          if r.id = testRunId then { r with status := st, duration_ms := dur } else r },
     true)
  else (db, false)

/-- The argument validation of `src/database/update-test-run.js`: the
status string must be one of the four run statuses (`RUNNING` included). -/
def parseRunStatus (s : String) : Option RunStatus :=
  if s = "RUNNING" then some RunStatus.RUNNING
  else if s = "COMPLETED" then some RunStatus.COMPLETED
  else if s = "PARTIAL" then some RunStatus.PARTIAL
  else if s = "FAILED" then some RunStatus.FAILED
  else none

/-- `main` of `src/database/update-test-run.js`: reject a zero/absent run
id and a status string outside the enum, then delegate to
`updateTestRun`.  `false` models `process.exit(1)`. -/
def updateTestRunCli (db : DBState) (connected : Bool) (testRunId : Int)
    (statusArg : String) (dur : Option Int) : DBState × Bool :=
  if testRunId = 0 then (db, false)
  else
    match parseRunStatus statusArg with
    | none => (db, false)
    | some st => updateTestRun db connected testRunId st dur

/-- `getTestRunIdFromEnv` from `src/database/ingest.js`.  The environment
value is modelled at the granularity the property needs: `TEST_RUN_ID`
either absent (or empty, both falsy in `testRunId ? parseInt(testRunId)
: null`) or set to an integer, in which case `parseInt` yields that
integer. -/
def getTestRunIdFromEnv (env : Option Int) : Option Int :=
  match env with
  | none => none
  | some n => some n

/-- The persistence step at the end of `runWebsiteTest` in
`tests/test-helpers.js`: when the database is connected, call
`insertDomainTest` with the run id taken from `TEST_RUN_ID` (or `null`
when the variable is absent); no test run is ever created here. -/
def runWebsiteTestIngest (db : DBState) (connected : Bool) (o : StmtOracle)
    (env : Option Int) (row : UrlTestRow) : DBState × Option Nat :=
  if connected then
    insertDomainTest db connected o { row with test_run_id := getTestRunIdFromEnv env }
  else (db, none)

/-- Number of `url_tests` rows carrying run id `rid`. -/
def testsFor (tests : List UrlTestRow) (rid : Int) : Nat :=
  (tests.filter fun t => t.test_run_id = some rid).length

/-- An application-level database operation: everything the source ever
does to the four tables. -/
inductive DbOp where
  | createRun (connected stmtOk : Bool) (totalUrls workers : Nat) (notes : Option String)
  | insertTest (connected : Bool) (o : StmtOracle) (row : UrlTestRow)
  | updateRun (connected : Bool) (testRunId : Int) (st : RunStatus) (dur : Option Int)
deriving DecidableEq, Repr

/-- Effect of one operation on the database. -/
def applyOp (db : DBState) (op : DbOp) : DBState :=
  match op with
  | .createRun c ok t w n => (createTestRun db c ok t w n).1
  | .insertTest c o row => (insertDomainTest db c o row).1
  | .updateRun c rid st dur => (updateTestRun db c rid st dur).1

/-- Effect of a sequence of operations. -/
def applyOps (db : DBState) (ops : List DbOp) : DBState :=
  ops.foldl applyOp db

/-- Referential integrity: every `url_tests` row points at an existing
run. -/
def fkInv (db : DBState) : Prop :=
  ∀ t ∈ db.url_tests, ∃ r ∈ db.runs, t.test_run_id = some r.id

/-- The counter invariant P1: for every run, `passed_count + failed_count`
equals the number of `url_tests` rows owned by it. -/
def countersInv (db : DBState) : Prop :=
  ∀ r ∈ db.runs, r.passed_count + r.failed_count = testsFor db.url_tests r.id

/-! ## Connection pool and read-side query layer

`query` in `src/database/client.js` returns the result rows on success and
`null` on every failure path (not connected, statement error, failed
reconnect retry); it never raises to its caller.  `connected` models
`isDatabaseConnected()`, `stmtOk` whether the round-trip succeeds, and the
rows the statement would produce are passed in explicitly. -/

/-- The pool's `query` helper: `some rows` on success, `none` otherwise. -/
def clientQuery {ρ : Type} (connected stmtOk : Bool) (rows : List ρ) : Option (List ρ) :=
  if connected then (if stmtOk then some rows else none) else none

/-- `getLatestTestRun` from `src/database/queries.js`:
`SELECT * FROM v_latest_test_run LIMIT 1`, then `result?.rows[0] || null`,
with every failure mapped to `null`. -/
def getLatestTestRun (connected stmtOk : Bool) (rows : List RunRow) : Option RunRow :=
  if connected then
    match clientQuery connected stmtOk rows with
    | none => none
    | some rs => rs.head?
  else none

/-- `getAllTestRuns` from `src/database/queries.js`: the run summaries,
newest first, capped by `LIMIT $1`; `[]` on every failure. -/
def getAllTestRuns (connected stmtOk : Bool) (rows : List RunRow) (limit : Nat) :
    List RunRow :=
  if connected then
    match clientQuery connected stmtOk (rows.take limit) with
    | none => []
    | some rs => rs
  else []

/-- `getUrlTestsByRun` from `src/database/queries.js`:
`WHERE test_run_id = $1`; `[]` on every failure. -/
def getUrlTestsByRun (connected stmtOk : Bool) (tests : List UrlTestRow)
    (testRunId : Int) : List UrlTestRow :=
  if connected then
    match clientQuery connected stmtOk (tests.filter fun t => t.test_run_id = some testRunId) with
    | none => []
    | some rs => rs
  else []

/-- `getUrlTestById` from `src/database/queries.js`: the single row with
the given id (joined with its run), or `null`. -/
def getUrlTestById (connected stmtOk : Bool) (tests : List UrlTestRow)
    (testId : Nat) : Option UrlTestRow :=
  if connected then
    match clientQuery connected stmtOk (tests.filter fun t => t.id = testId) with
    | none => none
    | some rs => rs.head?
  else none

/-- The SQL gate of `getFailedRequestsByTestId`:
`http_response_codes::text ~ '"[4-5][0-9]{2}"'` — the serialized JSONB
histogram has a quoted three-digit key starting with 4 or 5, i.e. some key
in 400–599. -/
def hasErrorCodeKey (codes : List (Int × Nat)) : Bool :=
  codes.any fun p => 400 ≤ p.1 ∧ p.1 ≤ 599

/-- `getFailedRequestsByTestId` from `src/database/queries.js`: select the
test row by id, gated by the histogram regex; read and parse its HAR file
(`readHar`, `none` on read/parse failure, which is caught leaving the
accumulator empty); then the extraction loop.  `[]` on every failure. -/
def getFailedRequestsByTestId (connected stmtOk : Bool) (tests : List UrlTestRow)
    (readHar : String → Option HarLog) (testId : Nat) : List FailedRequest :=
  if connected then
    match clientQuery connected stmtOk
        (tests.filter fun t => t.id = testId ∧ hasErrorCodeKey t.http_response_codes) with
    | none => []
    | some rs =>
      match rs.head? with
      | none => []
      | some t =>
        match readHar t.har_path with
        | none => []
        | some log => extractFailedRequests log
  else []

/-! ## HTTP layer -/

/-- The handler of `GET /api/test-runs` in `src/routes/api.js`: the query
function resolves normally on every input, so the `catch` branch that
would produce a 500 is unreachable and the handler always answers 200. -/
def handleTestRuns (connected stmtOk : Bool) (rows : List RunRow) (limit : Nat) :
    Nat × Bool × List RunRow :=
  (200, true, getAllTestRuns connected stmtOk rows limit)

/-- The handler of `GET /api/test-runs/latest`: 404 with `success: false`
when `getLatestTestRun` yields `null`, else 200. -/
def handleTestRunsLatest (connected stmtOk : Bool) (rows : List RunRow) : Nat × Bool :=
  match getLatestTestRun connected stmtOk rows with
  | none => (404, false)
  | some _ => (200, true)

/-- The handler of `GET /api/url-tests/:id/failed-requests`: always 200
with the (possibly empty) inventory. -/
def handleFailedRequests (connected stmtOk : Bool) (tests : List UrlTestRow)
    (readHar : String → Option HarLog) (testId : Nat) : Nat × Bool × List FailedRequest :=
  (200, true, getFailedRequestsByTestId connected stmtOk tests readHar testId)

/-- `healthCheck` from `src/database/client.js`: run `SELECT NOW()`
through the pool and report whether a row came back. -/
def healthCheck (connected stmtOk : Bool) : Bool :=
  match clientQuery connected stmtOk [()] with
  | none => false
  | some rs => rs.length > 0

/-- The `GET /health` handler in `src/index.js`. -/
def handleHealth (connected stmtOk : Bool) : String × String :=
  ("ok", if healthCheck connected stmtOk then "connected" else "disconnected")

/-! ## Orphan-directory cleanup (`src/database/cleanup.js`) -/

/-- One directory entry of `fs.readdir(..., { withFileTypes: true })`. -/
structure FsEntry where
  name : String
  isDirectory : Bool
deriving DecidableEq, Repr

/-- `dbPath.split('/')` character by character (the separator is the
single character `/`): splitting an empty string yields one empty field,
and every separator occurrence opens a new field. -/
def splitOnSlash : List Char → List (List Char)
  | [] => [[]]
  | c :: rest =>
    if c = '/' then [] :: splitOnSlash rest
    else
      match splitOnSlash rest with
      | [] => [[c]]
      | h :: t => (c :: h) :: t

/-- `extractDirNameFromPath`: the path segment right after the
`test-history` segment, or `null`.  JavaScript `indexOf` yields `-1` on a
miss; `List.indexOf` yields the length, so the `!== -1` test becomes a
length comparison. -/
def extractDirNameFromPath (dbPath : String) : Option String :=
  let parts := (splitOnSlash dbPath.data).map String.mk
  let i := parts.indexOf "test-history"
  if i < parts.length ∧ i + 1 < parts.length then some (parts.getD (i + 1) "") else none

/-- `getDirectoryNamesFromDatabase`: run `SELECT DISTINCT screenshot_path`
through the pool (`stmtOk` is the statement's success oracle — the pool's
`query` returns `null` on any failure, and `cleanup.js` in fact issues the
SELECT against the pre-rename `domain_tests` name); on success each path
is reduced to its `test-history` child segment, dropping misses and the
falsy empty string; on failure the `if (result && result.rows)` guard is
skipped and the reference set is silently left empty. -/
def getDirectoryNamesFromDatabase (stmtOk : Bool) (tests : List UrlTestRow) : List String :=
  if stmtOk then
    ((tests.map fun t => t.screenshot_path).dedup).filterMap fun p =>
      match extractDirNameFromPath p with
      | none => none
      | some d => if d = "" then none else some d
  else []

/-- `name.startsWith('.')`: the first character is a dot. -/
def startsWithDot (n : String) : Bool :=
  match n.data with
  | [] => false
  | c :: _ => c = '.'

/-- `getDirectoryNamesFromFilesystem`: direct children of `test-history/`
that are directories and whose names do not start with a dot. -/
def getDirectoryNamesFromFilesystem (entries : List FsEntry) : List String :=
  ((entries.filter fun e => e.isDirectory).map fun e => e.name).filter
    fun n => ¬ startsWithDot n

/-- Return value of `cleanupOrphanedDirectories`. -/
structure CleanupResult where
  deleted : Nat
  kept : Nat
  orphaned : List String
deriving DecidableEq, Repr

/-- `cleanupOrphanedDirectories`: abort (`throw`) when the database is
unreachable; otherwise load the reference set through the fallible SELECT
(`stmtOk`), compute the orphan set against it and, unless `dryRun`, remove
each orphan (`fs.rm` modelled as succeeding).  The second component is the
list of directory names actually removed from disk. -/
def cleanupOrphanedDirectories (connected stmtOk : Bool) (tests : List UrlTestRow)
    (entries : List FsEntry) (dryRun : Bool) : Option (CleanupResult × List String) :=
  if connected then
    let dbDirs := getDirectoryNamesFromDatabase stmtOk tests
    let fsDirs := getDirectoryNamesFromFilesystem entries
    let orphanedDirs := fsDirs.filter fun n => ¬ dbDirs.contains n
    let keptDirs := fsDirs.filter fun n => dbDirs.contains n
    if dryRun then some (⟨0, keptDirs.length, orphanedDirs⟩, [])
    else some (⟨orphanedDirs.length, keptDirs.length, orphanedDirs⟩, orphanedDirs)
  else none

/-! ## Concrete sample data

Small concrete states used by counterexamples and witnesses. -/

/-- A HAR log with statuses 200, 200, 404, 500, 500, one aborted request
(status `-1`) and one entry without a response object. -/
def harLogEx : HarLog where
  hasEntries := true
  entries :=
    [⟨true, 200, some "https://example.com/"⟩,
     ⟨true, 200, some "https://example.com/a.css"⟩,
     ⟨true, 404, some "https://example.com/missing.png"⟩,
     ⟨true, 500, some "https://example.com/api"⟩,
     ⟨true, 500, some "https://example.com/api2"⟩,
     ⟨true, -1, some "https://example.com/aborted"⟩,
     ⟨false, 0, none⟩]

/-- A HAR log whose failing entries appear with the larger code first. -/
def harLogDesc : HarLog where
  hasEntries := true
  entries :=
    [⟨true, 500, some "https://example.com/api"⟩,
     ⟨true, 404, some "https://example.com/missing.png"⟩]

/-- A measurement row for run 1 with a non-empty histogram. -/
def rowEx : UrlTestRow where
  id := 1
  test_run_id := some 1
  status := TestStatus.PASSED
  url := "https://example.com"
  screenshot_path := "/app/test-history/d1/screenshot.png"
  har_path := "/app/test-history/d1/network.har"
  http_response_codes := [(200, 4)]
  resources_by_type := [("script", 3), ("img", 1)]

/-- A url_tests row whose histogram has 4xx/5xx keys, pointing at
`harLogDesc`. -/
def rowWithErrors : UrlTestRow where
  id := 7
  test_run_id := some 1
  status := TestStatus.PASSED
  url := "https://example.com"
  screenshot_path := "/app/test-history/d7/screenshot.png"
  har_path := "/app/test-history/d7/network.har"
  http_response_codes := [(200, 10), (404, 1), (500, 2)]
  resources_by_type := []

/-- A freshly created run with id 1. -/
def runRow1 : RunRow where
  id := 1
  total_urls := 2
  parallel_workers := 4
  passed_count := 0
  failed_count := 0
  status := RunStatus.RUNNING
  duration_ms := none
  notes := none

/-- A database holding exactly the run `runRow1`. -/
def db1 : DBState := ⟨[runRow1], [], [], []⟩

/-- A run that has reached the terminal status COMPLETED. -/
def runCompleted : RunRow where
  id := 1
  total_urls := 0
  parallel_workers := 4
  passed_count := 0
  failed_count := 0
  status := RunStatus.COMPLETED
  duration_ms := some 1000
  notes := none

/-- A database holding exactly the terminal run `runCompleted`. -/
def dbCompleted : DBState := ⟨[runCompleted], [], [], []⟩

/-- A run creation followed by one successful PASSED insert. -/
def ops0 : List DbOp :=
  [DbOp.createRun true true 2 4 none,
   DbOp.insertTest true ⟨true, true, true⟩ rowEx]

/-- The run row `ops0` leaves behind. -/
def runAfterOps0 : RunRow where
  id := 1
  total_urls := 2
  parallel_workers := 4
  passed_count := 1
  failed_count := 0
  status := RunStatus.RUNNING
  duration_ms := none
  notes := none

/-- Navigation timings whose DNS phase ends before it starts (as reported
by the browser for cached or unmeasurable phases). -/
def navNeg : NavTiming where
  domainLookupStart := 10
  domainLookupEnd := 5
  connectStart := 0
  connectEnd := 0
  secureConnectionStart := 0
  requestStart := 0
  responseStart := 0
  responseEnd := 0
  domContentLoadedEventStart := 0
  domContentLoadedEventEnd := 0
  domInteractive := 0
  fetchStart := 0
  loadEventEnd := 0
  transferSize := 0
  encodedBodySize := 0
  decodedBodySize := 0

/-- Well-ordered navigation timings over an https connection. -/
def navOrdered : NavTiming where
  domainLookupStart := 1
  domainLookupEnd := 3
  connectStart := 3
  connectEnd := 9
  secureConnectionStart := 5
  requestStart := 9
  responseStart := 20
  responseEnd := 25
  domContentLoadedEventStart := 30
  domContentLoadedEventEnd := 32
  domInteractive := 28
  fetchStart := 0
  loadEventEnd := 40
  transferSize := 14000
  encodedBodySize := 13000
  decodedBodySize := 50000

/-! # Theorems -/

/-! ## Histogram lemmas -/

/-- Bumping a key increments exactly its own count. -/
theorem lookupCount_bumpCode_self (m : List (Int × Nat)) (c : Int) :
    lookupCount (bumpCode m c) c = lookupCount m c + 1 := by
  induction m with
  | nil => simp [bumpCode, lookupCount, List.find?]
  | cons p t ih =>
    by_cases h : p.1 = c
    · simp [bumpCode, lookupCount, List.find?, h]
    · simp only [bumpCode, if_neg h]
      simpa [lookupCount, List.find?, h] using ih

/-- Bumping a key leaves every other count unchanged. -/
theorem lookupCount_bumpCode_ne (m : List (Int × Nat)) (c d : Int) (h : d ≠ c) :
    lookupCount (bumpCode m c) d = lookupCount m d := by
  induction m with
  | nil => simp [bumpCode, lookupCount, List.find?, Ne.symm h]
  | cons p t ih =>
    by_cases hp : p.1 = c
    · subst hp
      simp [bumpCode, lookupCount, List.find?, Ne.symm h]
    · simp only [bumpCode, if_neg hp]
      by_cases hd : p.1 = d
      · simp [lookupCount, List.find?, hd]
      · simpa [lookupCount, List.find?, hd] using ih

/-- Folding the counting step over entries adds, for each code, the number
of counted entries carrying that code. -/
theorem lookupCount_foldl_countCodeStep (l : List HarEntry) (m : List (Int × Nat)) (c : Int) :
    lookupCount (l.foldl countCodeStep m) c =
      lookupCount m c +
        (l.filter fun e => e.hasResponse ∧ e.status ≠ 0 ∧ e.status > 0 ∧ e.status = c).length := by
  induction l generalizing m with
  | nil => simp
  | cons e t ih =>
    rw [List.foldl_cons, ih]
    by_cases hcnt : e.hasResponse ∧ e.status ≠ 0 ∧ e.status > 0
    · by_cases hc : e.status = c
      · subst hc
        rw [countCodeStep, if_pos hcnt, lookupCount_bumpCode_self]
        simp [List.filter_cons, hcnt]
        omega
      · rw [countCodeStep, if_pos hcnt, lookupCount_bumpCode_ne _ _ _ (fun h => hc h.symm)]
        simp [List.filter_cons, hc]
    · rw [countCodeStep, if_neg hcnt]
      have : ¬(e.hasResponse ∧ e.status ≠ 0 ∧ e.status > 0 ∧ e.status = c) := by
        intro h
        exact hcnt ⟨h.1, h.2.1, h.2.2.1⟩
      simp [List.filter_cons, this]

/-- C4.  `parseHttpResponseCodes` is total over all inputs — an unreadable
or unparsable file (`none`) and a log without an entries array both yield
the empty histogram, and no exception escapes (the Lean embedding returns
a plain value on every input by construction, mirroring the try/catch that
converts every error into `{}`); on a well-formed HAR the histogram maps
each positive status code to the number of entries carrying that code, and
records nothing for non-positive codes such as `-1`. -/
theorem parseHttpResponseCodes_total_histogram :
    parseHttpResponseCodes none = [] ∧
    (∀ log : HarLog, log.hasEntries = false → parseHttpResponseCodes (some log) = []) ∧
    (∀ (log : HarLog) (c : Int), log.hasEntries = true → 0 < c →
      lookupCount (parseHttpResponseCodes (some log)) c =
        (log.entries.filter fun e => e.hasResponse ∧ e.status = c).length) ∧
    (∀ (log : HarLog) (c : Int), c ≤ 0 →
      lookupCount (parseHttpResponseCodes (some log)) c = 0) := by
  refine ⟨rfl, ?_, ?_, ?_⟩
  · intro log h
    simp [parseHttpResponseCodes, h]
  · intro log c hE hc
    rw [parseHttpResponseCodes, if_pos hE, lookupCount_foldl_countCodeStep]
    rw [show lookupCount [] c = 0 from rfl, Nat.zero_add]
    congr 1
    apply List.filter_congr
    intro e _
    by_cases h1 : e.hasResponse
    · by_cases h2 : e.status = c
      · subst h2
        simp [h1]
        omega
      · simp [h2]
    · simp [h1]
  · intro log c hc
    by_cases hE : log.hasEntries
    · rw [parseHttpResponseCodes, if_pos hE, lookupCount_foldl_countCodeStep]
      have hnil : (log.entries.filter fun e =>
          e.hasResponse ∧ e.status ≠ 0 ∧ e.status > 0 ∧ e.status = c) = [] := by
        apply List.filter_eq_nil_iff.mpr
        intro e _
        simp only [decide_eq_true_eq, not_and]
        intro _ _ h3 h4
        omega
      rw [hnil]
      simp [lookupCount]
    · simp [parseHttpResponseCodes, hE, lookupCount]

/-- C4 witness: on `harLogEx` (codes 200, 200, 404, 500, 500, one aborted
`-1` entry, one entry without response) the theorem instantiates at code
200, and the count evaluates to 2; the `-1` code is absent. -/
theorem parseHttpResponseCodes_total_histogram_witness :
    lookupCount (parseHttpResponseCodes (some harLogEx)) 200 =
      (harLogEx.entries.filter fun e => e.hasResponse ∧ e.status = 200).length ∧
    lookupCount (parseHttpResponseCodes (some harLogEx)) 200 = 2 ∧
    lookupCount (parseHttpResponseCodes (some harLogEx)) (-1) = 0 :=
  ⟨parseHttpResponseCodes_total_histogram.2.2.1 harLogEx 200 (by decide) (by decide),
   by decide,
   parseHttpResponseCodes_total_histogram.2.2.2 harLogEx (-1) (by decide)⟩

/-! ## Navigation timing -/

/-- C7 counterexample: `collectPerformanceMetrics` does not clamp negative
raw differences.  With `domainLookupStart = 10` and `domainLookupEnd = 5`
the returned `dnsLookup` is `-5`, which is negative — refuting the claim
that every duration field is clamped to zero. -/
theorem collectPerformanceMetrics_negative_counterexample :
    (collectPerformanceMetrics (some navNeg) []).navigation.map NavMetrics.dnsLookup =
      some (-5) ∧
    ¬ (0 : Int) ≤ -5 := by
  constructor
  · rfl
  · decide

/-- C7 amended: the code returns the raw differences unclamped, so the
duration fields are non-negative exactly when the underlying timestamp
pairs are ordered; the only special case is `tlsNegotiation`, which is
forced to `0` whenever `secureConnectionStart ≤ 0` (e.g. plain-http
pages). -/
theorem computeNavMetrics_nonneg_of_ordered (t : NavTiming)
    (h1 : t.domainLookupStart ≤ t.domainLookupEnd)
    (h2 : t.connectStart ≤ t.connectEnd)
    (h3 : t.secureConnectionStart ≤ t.connectEnd)
    (h4 : t.requestStart ≤ t.responseStart)
    (h5 : t.responseStart ≤ t.responseEnd)
    (h6 : t.domContentLoadedEventStart ≤ t.domContentLoadedEventEnd)
    (h7 : t.fetchStart ≤ t.domInteractive)
    (h8 : t.fetchStart ≤ t.loadEventEnd) :
    0 ≤ (computeNavMetrics t).dnsLookup ∧
    0 ≤ (computeNavMetrics t).tcpConnection ∧
    0 ≤ (computeNavMetrics t).tlsNegotiation ∧
    0 ≤ (computeNavMetrics t).timeToFirstByte ∧
    0 ≤ (computeNavMetrics t).responseTime ∧
    0 ≤ (computeNavMetrics t).domContentLoaded ∧
    0 ≤ (computeNavMetrics t).domInteractive ∧
    0 ≤ (computeNavMetrics t).pageLoadTime ∧
    (t.secureConnectionStart ≤ 0 → (computeNavMetrics t).tlsNegotiation = 0) := by
  refine ⟨?_, ?_, ?_, ?_, ?_, ?_, ?_, ?_, ?_⟩ <;>
    simp only [computeNavMetrics] <;>
    omega

/-- C7 witness: the amended theorem applied to the well-ordered sample
timings `navOrdered`. -/
theorem computeNavMetrics_nonneg_of_ordered_witness :
    0 ≤ (computeNavMetrics navOrdered).dnsLookup ∧
    0 ≤ (computeNavMetrics navOrdered).tcpConnection ∧
    0 ≤ (computeNavMetrics navOrdered).tlsNegotiation ∧
    0 ≤ (computeNavMetrics navOrdered).timeToFirstByte ∧
    0 ≤ (computeNavMetrics navOrdered).responseTime ∧
    0 ≤ (computeNavMetrics navOrdered).domContentLoaded ∧
    0 ≤ (computeNavMetrics navOrdered).domInteractive ∧
    0 ≤ (computeNavMetrics navOrdered).pageLoadTime ∧
    (navOrdered.secureConnectionStart ≤ 0 →
      (computeNavMetrics navOrdered).tlsNegotiation = 0) :=
  computeNavMetrics_nonneg_of_ordered navOrdered (by decide) (by decide) (by decide)
    (by decide) (by decide) (by decide) (by decide) (by decide)

/-! ## Query layer and HTTP API -/

/-- C10.  The exported read-side query functions are total at their
interface: whenever the database is disconnected, or the underlying query
round-trip fails, every list-valued function returns `[]` and every
single-row function returns `null` — no error reaches the caller (each
embedded function returns a plain value; the source wraps every await in
try/catch and the pool's `query` itself maps failures to `null`). -/
theorem queryLayer_total_on_failure
    (connected stmtOk : Bool) (runs : List RunRow) (tests : List UrlTestRow)
    (readHar : String → Option HarLog) (limit : Nat) (runId : Int) (testId : Nat)
    (h : connected = false ∨ stmtOk = false) :
    getLatestTestRun connected stmtOk runs = none ∧
    getAllTestRuns connected stmtOk runs limit = [] ∧
    getUrlTestsByRun connected stmtOk tests runId = [] ∧
    getUrlTestById connected stmtOk tests testId = none ∧
    getFailedRequestsByTestId connected stmtOk tests readHar testId = [] := by
  rcases h with h | h
  · subst h
    simp [getLatestTestRun, getAllTestRuns, getUrlTestsByRun, getUrlTestById,
      getFailedRequestsByTestId, clientQuery]
  · subst h
    cases connected <;>
      simp [getLatestTestRun, getAllTestRuns, getUrlTestsByRun, getUrlTestById,
        getFailedRequestsByTestId, clientQuery]

/-- C10 witness: the theorem applied to a connected pool whose statement
round-trip fails. -/
theorem queryLayer_total_on_failure_witness :
    getLatestTestRun true false [runRow1] = none ∧
    getAllTestRuns true false [runRow1] 10 = [] ∧
    getUrlTestsByRun true false [rowEx] 1 = [] ∧
    getUrlTestById true false [rowEx] 1 = none ∧
    getFailedRequestsByTestId true false [rowWithErrors] (fun _ => some harLogDesc) 7 = [] :=
  queryLayer_total_on_failure true false [runRow1] [rowEx]
    (fun _ => some harLogDesc) 10 1 7 (Or.inr rfl)

/-- C8 counterexample: with the database connection not established, the
data-serving endpoint `GET /api/test-runs` answers HTTP 200 with
`success: true` and an empty list — not HTTP 500 as claimed (its query
function returns `[]` instead of raising, so the 500-producing catch
branch never runs). -/
theorem api_disconnected_counterexample :
    handleTestRuns false true [runRow1] 10 = (200, true, []) ∧ (200 : Nat) ≠ 500 := by
  constructor
  · rfl
  · decide

/-- C8 amended: when the database connection could not be established the
API degrades rather than erroring: list endpoints answer 200 with empty
data, the single-entity endpoint `/api/test-runs/latest` answers 404, and
`GET /health` does report `database: disconnected`. -/
theorem api_disconnected_behavior
    (stmtOk : Bool) (rows : List RunRow) (tests : List UrlTestRow)
    (readHar : String → Option HarLog) (limit : Nat) (testId : Nat) :
    handleTestRuns false stmtOk rows limit = (200, true, []) ∧
    handleTestRunsLatest false stmtOk rows = (404, false) ∧
    handleFailedRequests false stmtOk tests readHar testId = (200, true, []) ∧
    handleHealth false stmtOk = ("ok", "disconnected") := by
  refine ⟨?_, ?_, ?_, ?_⟩ <;>
    simp [handleTestRuns, handleTestRunsLatest, handleFailedRequests, handleHealth,
      getAllTestRuns, getLatestTestRun, getFailedRequestsByTestId, healthCheck, clientQuery]

/-! ## Failed-request extraction -/

/-- For codes at least 400 the category branch collapses to the two
claimed labels; the initial `Unknown` is unreachable. -/
theorem statusCategoryOf_of_ge (c : Int) (hc : 400 ≤ c) :
    statusCategoryOf c = if c < 500 then "Client Error" else "Server Error" := by
  rw [statusCategoryOf]
  split_ifs with h1 h2 h3 <;> first | rfl | omega

/-- The HAR loop emits, in HAR insertion order, one row per entry with a
response status of at least 400. -/
theorem extractFailedRequests_eq (log : HarLog) (hE : log.hasEntries = true) :
    extractFailedRequests log =
      (log.entries.filter fun e => e.hasResponse ∧ 400 ≤ e.status).map
        (fun e => ⟨requestUrlOf e, e.status,
          if e.status < 500 then "Client Error" else "Server Error"⟩) := by
  rw [extractFailedRequests, if_pos hE]
  induction log.entries with
  | nil => rfl
  | cons e t ih =>
    by_cases h : e.hasResponse ∧ 400 ≤ e.status
    · rw [List.filterMap_cons, if_pos h]
      dsimp only
      rw [List.filter_cons, if_pos (decide_eq_true h), List.map_cons, ih,
        statusCategoryOf_of_ge e.status h.2]
    · rw [List.filterMap_cons, if_neg h]
      dsimp only
      rw [List.filter_cons, if_neg (fun hc => h (of_decide_eq_true hc)), ih]

/-- C6 counterexample: for a test whose HAR records a 500 entry before a
404 entry, `getFailedRequestsByTestId` returns the 500 row first — the
rows come back in HAR insertion order, not sorted by status code
ascending as claimed. -/
theorem getFailedRequestsByTestId_order_counterexample :
    (getFailedRequestsByTestId true true [rowWithErrors]
        (fun _ => some harLogDesc) 7).map FailedRequest.statusCode = [500, 404] ∧
    ¬ List.Chain' (· ≤ ·) ((getFailedRequestsByTestId true true [rowWithErrors]
        (fun _ => some harLogDesc) 7).map FailedRequest.statusCode) := by
  constructor
  · rfl
  · intro h
    rw [show (getFailedRequestsByTestId true true [rowWithErrors]
        (fun _ => some harLogDesc) 7).map FailedRequest.statusCode = [500, 404] from rfl] at h
    rcases h with _ | ⟨hle, _⟩
    omega

/-- C6 amended: for a url_test whose stored histogram passes the 4xx/5xx
key gate and whose HAR file parses, the result has one
`(requestUrl, statusCode, statusCategory)` row per HAR entry with status
at least 400, in HAR insertion order (the code never sorts by status
code), with category `Client Error` for 400–499 and `Server Error` for
500 and above. -/
theorem getFailedRequestsByTestId_rows
    (tests : List UrlTestRow) (readHar : String → Option HarLog) (testId : Nat)
    (t : UrlTestRow) (log : HarLog)
    (ht : (tests.filter fun u => u.id = testId ∧ hasErrorCodeKey u.http_response_codes).head?
        = some t)
    (hr : readHar t.har_path = some log) (hE : log.hasEntries = true) :
    getFailedRequestsByTestId true true tests readHar testId =
      (log.entries.filter fun e => e.hasResponse ∧ 400 ≤ e.status).map
        (fun e => ⟨requestUrlOf e, e.status,
          if e.status < 500 then "Client Error" else "Server Error"⟩) := by
  rw [getFailedRequestsByTestId]
  simp only [if_true, clientQuery]
  rw [ht]
  dsimp only
  rw [hr]
  exact extractFailedRequests_eq log hE

/-- C6 witness: the amended theorem applied to `rowWithErrors` and
`harLogDesc`, whose two failing entries come back in HAR order with the
claimed categories. -/
theorem getFailedRequestsByTestId_rows_witness :
    getFailedRequestsByTestId true true [rowWithErrors] (fun _ => some harLogDesc) 7 =
      (harLogDesc.entries.filter fun e => e.hasResponse ∧ 400 ≤ e.status).map
        (fun e => ⟨requestUrlOf e, e.status,
          if e.status < 500 then "Client Error" else "Server Error"⟩) :=
  getFailedRequestsByTestId_rows [rowWithErrors] (fun _ => some harLogDesc) 7
    rowWithErrors harLogDesc (by decide) rfl rfl

/-! ## Run status updates -/

/-- C5 counterexample: a run already in the terminal status `COMPLETED` is
updated back to `RUNNING` — the CLI validates only that the status string
is one of the four enum values, and `updateTestRun` never reads the
current status, so the forbidden transition is applied instead of being
rejected. -/
theorem updateTestRun_terminal_counterexample :
    runCompleted.status = RunStatus.COMPLETED ∧
    (updateTestRunCli dbCompleted true 1 "RUNNING" none).2 = true ∧
    (updateTestRunCli dbCompleted true 1 "RUNNING" none).1.runs.map RunRow.status =
      [RunStatus.RUNNING] := by
  refine ⟨rfl, ?_, ?_⟩ <;> decide

/-- C5 amended: `updateTestRun` (and its CLI wrapper) applies the
requested status unconditionally: subject only to a connected database, a
non-zero run id and a status string inside the enum (`RUNNING` included),
every run row with the target id receives the new status and duration
whatever its current status was — terminal states included; nothing else
changes and no transition is ever rejected on state-machine grounds. -/
theorem updateTestRun_applies_any_transition
    (db : DBState) (id : Int) (s : String) (st : RunStatus) (dur : Option Int)
    (hs : parseRunStatus s = some st) (hid : id ≠ 0) :
    (updateTestRunCli db true id s dur).2 = true ∧
    (updateTestRunCli db true id s dur).1.runs =
      db.runs.map (fun r =>
        if r.id = id then { r with status := st, duration_ms := dur } else r) ∧
    ∀ r ∈ db.runs, r.id = id →
      { r with status := st, duration_ms := dur } ∈
        (updateTestRunCli db true id s dur).1.runs := by
  rw [updateTestRunCli, if_neg hid, hs]
  dsimp only
  rw [updateTestRun, if_pos ⟨rfl, hid⟩]
  refine ⟨rfl, rfl, ?_⟩
  intro r hr hrid
  have hmem := List.mem_map_of_mem
    (fun r => if r.id = id then { r with status := st, duration_ms := dur } else r) hr
  dsimp only at hmem
  rw [if_pos hrid] at hmem
  exact hmem

/-- C5 witness: the amended theorem applied to the terminal run
`runCompleted`, moved to `PARTIAL`. -/
theorem updateTestRun_applies_any_transition_witness :
    (updateTestRunCli dbCompleted true 1 "PARTIAL" (some 5)).2 = true ∧
    (updateTestRunCli dbCompleted true 1 "PARTIAL" (some 5)).1.runs =
      dbCompleted.runs.map (fun r =>
        if r.id = 1 then
          { r with status := RunStatus.PARTIAL, duration_ms := some 5 }
        else r) ∧
    ∀ r ∈ dbCompleted.runs, r.id = 1 →
      { r with status := RunStatus.PARTIAL, duration_ms := some 5 } ∈
        (updateTestRunCli dbCompleted true 1 "PARTIAL" (some 5)).1.runs :=
  updateTestRun_applies_any_transition dbCompleted 1 "PARTIAL" RunStatus.PARTIAL
    (some 5) (by decide) (by decide)

/-! ## Orphan-directory cleanup -/

/-- C3 counterexample: a hidden on-disk directory `.cache` directly under
`test-history/` is not referenced by any `url_tests.screenshot_path`, so
under the claim it belongs to `D \ P` and is deleted with
`dryRun = false`; the code filters names starting with a dot out of the
enumeration, reports no orphan at all and deletes nothing (here with the
SELECT succeeding, so the claim's `P` is correctly loaded and empty). -/
theorem cleanup_hidden_dir_counterexample :
    (⟨".cache", true⟩ : FsEntry).isDirectory = true ∧
    getDirectoryNamesFromDatabase true [] = [] ∧
    cleanupOrphanedDirectories true true [] [⟨".cache", true⟩] false =
      some (⟨0, 0, []⟩, []) := by
  refine ⟨rfl, rfl, ?_⟩
  decide

/-- C3 amended: with the database reachable, the computed orphan set is
exactly the enumerated on-disk directory names (the direct children that
are directories and do not start with `.`) minus the reference set as
loaded by the fallible SELECT on `screenshot_path` — when that statement
succeeds this is the set of referenced directory names, but when it fails
(the pool's `query` returns `null`; the staged `cleanup.js` even issues
the SELECT against the pre-rename `domain_tests` name) the reference set
is silently empty and every enumerated directory, referenced ones
included, counts as an orphan.  With `dryRun = true` nothing is deleted
and the orphans are only reported; with `dryRun = false` exactly the
computed orphan set is deleted — which on the failed-SELECT path means
every enumerated directory. -/
theorem cleanup_orphans_spec
    (stmtOk : Bool) (tests : List UrlTestRow) (entries : List FsEntry) (dryRun : Bool) :
    ∃ res : CleanupResult × List String,
      cleanupOrphanedDirectories true stmtOk tests entries dryRun = some res ∧
      (∀ n, n ∈ res.1.orphaned ↔
        n ∈ getDirectoryNamesFromFilesystem entries ∧
        n ∉ getDirectoryNamesFromDatabase stmtOk tests) ∧
      (stmtOk = false → res.1.orphaned = getDirectoryNamesFromFilesystem entries) ∧
      (dryRun = true → res.2 = []) ∧
      (dryRun = false → res.2 = res.1.orphaned) := by
  have hiff : ∀ n, n ∈ (getDirectoryNamesFromFilesystem entries).filter
      (fun n => ¬ (getDirectoryNamesFromDatabase stmtOk tests).contains n) ↔
      n ∈ getDirectoryNamesFromFilesystem entries ∧
      n ∉ getDirectoryNamesFromDatabase stmtOk tests := by
    intro n
    simp [List.mem_filter]
  have hfail : stmtOk = false →
      (getDirectoryNamesFromFilesystem entries).filter
        (fun n => ¬ (getDirectoryNamesFromDatabase stmtOk tests).contains n) =
      getDirectoryNamesFromFilesystem entries := by
    intro h
    subst h
    simp [getDirectoryNamesFromDatabase]
  cases dryRun
  · refine ⟨_, rfl, hiff, hfail, ?_, ?_⟩
    · intro h
      cases h
    · intro _
      rfl
  · refine ⟨_, rfl, hiff, hfail, ?_, ?_⟩
    · intro _
      rfl
    · intro h
      cases h

/-- C3 witness: the amended theorem at a failing SELECT over a filesystem
holding directories `d1`, `B`, `d7` of which the database rows reference
`d1` and `d7`, in live mode: the reference set collapses to empty and all
three directories — the two referenced ones included — are reported as
orphans and deleted. -/
theorem cleanup_orphans_spec_witness :
    ∃ res : CleanupResult × List String,
      cleanupOrphanedDirectories true false [rowEx, rowWithErrors]
        [⟨"d1", true⟩, ⟨"B", true⟩, ⟨"d7", true⟩] false = some res ∧
      (∀ n, n ∈ res.1.orphaned ↔
        n ∈ getDirectoryNamesFromFilesystem [⟨"d1", true⟩, ⟨"B", true⟩, ⟨"d7", true⟩] ∧
        n ∉ getDirectoryNamesFromDatabase false [rowEx, rowWithErrors]) ∧
      (false = false →
        res.1.orphaned =
          getDirectoryNamesFromFilesystem [⟨"d1", true⟩, ⟨"B", true⟩, ⟨"d7", true⟩]) ∧
      (false = true → res.2 = []) ∧
      (false = false → res.2 = res.1.orphaned) :=
  cleanup_orphans_spec false [rowEx, rowWithErrors]
    [⟨"d1", true⟩, ⟨"B", true⟩, ⟨"d7", true⟩] false

/-! ## Ingestion -/

/-- `insertHttpResponses` touches only the `http_responses` table, and
appends its rows exactly when its own statement succeeds on a non-empty
histogram for a truthy test id. -/
theorem insertHttpResponses_spec (db : DBState) (ok : Bool) (testId : Nat)
    (codes : List (Int × Nat)) :
    (insertHttpResponses db ok testId codes).runs = db.runs ∧
    (insertHttpResponses db ok testId codes).url_tests = db.url_tests ∧
    (insertHttpResponses db ok testId codes).resource_types = db.resource_types ∧
    (insertHttpResponses db ok testId codes).http_responses =
      db.http_responses ++
        (if codes.isEmpty ∨ testId = 0 ∨ ok = false then []
         else codes.map fun p => ⟨testId, p.1, p.2⟩) := by
  rw [insertHttpResponses]
  split_ifs with h1 h2 h3 h4 <;> simp_all

/-- `insertResourceTypes` touches only the `resource_types` table,
analogously. -/
theorem insertResourceTypes_spec (db : DBState) (ok : Bool) (testId : Nat)
    (types : List (String × Nat)) :
    (insertResourceTypes db ok testId types).runs = db.runs ∧
    (insertResourceTypes db ok testId types).url_tests = db.url_tests ∧
    (insertResourceTypes db ok testId types).http_responses = db.http_responses ∧
    (insertResourceTypes db ok testId types).resource_types =
      db.resource_types ++
        (if types.isEmpty ∨ testId = 0 ∨ ok = false then []
         else types.map fun p => ⟨testId, p.1, p.2⟩) := by
  rw [insertResourceTypes]
  split_ifs with h1 h2 h3 h4 <;> simp_all

/-- C1 counterexample: a connected call in which the `url_tests` INSERT
succeeds but the `http_responses` INSERT fails reports success and leaves
the `url_tests` row committed with a non-empty histogram and no
`http_responses` row — the write is not all-or-nothing, because
`insertDomainTest` issues three independent statements with no enclosing
transaction. -/
theorem insertDomainTest_partial_write_counterexample :
    (insertDomainTest db1 true ⟨true, false, true⟩ rowEx).2 = some 1 ∧
    (insertDomainTest db1 true ⟨true, false, true⟩ rowEx).1.url_tests = [rowEx] ∧
    (insertDomainTest db1 true ⟨true, false, true⟩ rowEx).1.http_responses = [] ∧
    rowEx.http_response_codes ≠ [] := by
  refine ⟨?_, ?_, ?_, ?_⟩ <;> decide

/-- Full characterisation of `insertDomainTest` on a connected pool: the
main INSERT either fails (leaving the state untouched) or commits the row
with one trigger firing, after which each satellite INSERT appends its
rows exactly when its own statement succeeds on a non-empty map. -/
theorem insertDomainTest_state (db : DBState) (o : StmtOracle) (row : UrlTestRow) :
    (¬(o.mainOk = true ∧ urlTestInsertOk db row = true) →
      insertDomainTest db true o row = (db, none)) ∧
    ((o.mainOk = true ∧ urlTestInsertOk db row = true) →
      (insertDomainTest db true o row).2 = some row.id ∧
      (insertDomainTest db true o row).1.url_tests = db.url_tests ++ [row] ∧
      (insertDomainTest db true o row).1.runs = update_test_run_counts db.runs row ∧
      (insertDomainTest db true o row).1.http_responses =
        db.http_responses ++
          (if row.http_response_codes.isEmpty ∨ row.id = 0 ∨ o.httpOk = false then []
           else row.http_response_codes.map fun p => ⟨row.id, p.1, p.2⟩) ∧
      (insertDomainTest db true o row).1.resource_types =
        db.resource_types ++
          (if row.resources_by_type.isEmpty ∨ row.id = 0 ∨ o.resOk = false then []
           else row.resources_by_type.map fun p => ⟨row.id, p.1, p.2⟩)) := by
  constructor
  · intro h
    rw [insertDomainTest]
    by_cases hm : o.mainOk = true
    · rw [if_pos rfl, if_pos hm, insertUrlTestRow,
        if_neg (fun hc => h ⟨hm, hc⟩)]
    · rw [if_pos rfl, if_neg hm]
  · rintro ⟨hm, hok⟩
    rw [insertDomainTest, if_pos rfl, if_pos hm, insertUrlTestRow, if_pos hok]
    dsimp only
    obtain ⟨hh1, hh2, hh3, hh4⟩ := insertHttpResponses_spec
      { db with url_tests := db.url_tests ++ [row], runs := update_test_run_counts db.runs row }
      o.httpOk row.id row.http_response_codes
    obtain ⟨hr1, hr2, hr3, hr4⟩ := insertResourceTypes_spec
      (insertHttpResponses
        { db with url_tests := db.url_tests ++ [row], runs := update_test_run_counts db.runs row }
        o.httpOk row.id row.http_response_codes)
      o.resOk row.id row.resources_by_type
    refine ⟨rfl, ?_, ?_, ?_, ?_⟩
    · rw [hr2, hh2]
    · rw [hr1, hh1]
    · rw [hr3, hh4]
    · rw [hr4, hh3]

/-- C1 amended: the `url_tests` INSERT (which fires the counter trigger
exactly once) commits on its own: when it fails nothing at all is written,
and when it succeeds the row and the trigger's counter update are
committed while each satellite table is extended only if its own
statement succeeds on a non-empty map — so a committed `url_tests` row
with missing satellite rows is a reachable outcome. -/
theorem insertDomainTest_effects (db : DBState) (o : StmtOracle) (row : UrlTestRow) :
    (¬(o.mainOk = true ∧ urlTestInsertOk db row = true) →
      insertDomainTest db true o row = (db, none)) ∧
    ((o.mainOk = true ∧ urlTestInsertOk db row = true) →
      (insertDomainTest db true o row).2 = some row.id ∧
      (insertDomainTest db true o row).1.url_tests = db.url_tests ++ [row] ∧
      (insertDomainTest db true o row).1.runs = update_test_run_counts db.runs row ∧
      (insertDomainTest db true o row).1.http_responses =
        db.http_responses ++
          (if row.http_response_codes.isEmpty ∨ row.id = 0 ∨ o.httpOk = false then []
           else row.http_response_codes.map fun p => ⟨row.id, p.1, p.2⟩) ∧
      (insertDomainTest db true o row).1.resource_types =
        db.resource_types ++
          (if row.resources_by_type.isEmpty ∨ row.id = 0 ∨ o.resOk = false then []
           else row.resources_by_type.map fun p => ⟨row.id, p.1, p.2⟩)) :=
  insertDomainTest_state db o row

/-- C1 witness: with every statement succeeding, the amended theorem
instantiates at `db1` and `rowEx`, committing the row, one trigger firing
and both satellite groups. -/
theorem insertDomainTest_effects_witness :
    (insertDomainTest db1 true ⟨true, true, true⟩ rowEx).2 = some rowEx.id ∧
    (insertDomainTest db1 true ⟨true, true, true⟩ rowEx).1.url_tests =
      db1.url_tests ++ [rowEx] ∧
    (insertDomainTest db1 true ⟨true, true, true⟩ rowEx).1.runs =
      update_test_run_counts db1.runs rowEx ∧
    (insertDomainTest db1 true ⟨true, true, true⟩ rowEx).1.http_responses =
      db1.http_responses ++
        (if rowEx.http_response_codes.isEmpty ∨ rowEx.id = 0 ∨ (true : Bool) = false then []
         else rowEx.http_response_codes.map fun p => ⟨rowEx.id, p.1, p.2⟩) ∧
    (insertDomainTest db1 true ⟨true, true, true⟩ rowEx).1.resource_types =
      db1.resource_types ++
        (if rowEx.resources_by_type.isEmpty ∨ rowEx.id = 0 ∨ (true : Bool) = false then []
         else rowEx.resources_by_type.map fun p => ⟨rowEx.id, p.1, p.2⟩) :=
  (insertDomainTest_effects db1 ⟨true, true, true⟩ rowEx).2 ⟨rfl, by decide⟩

/-- C9 counterexample: with `TEST_RUN_ID` absent the worker hands `null`
to the ingest layer: no test run is auto-created (the run table is
untouched) and the measurement is not attributed to any run — the insert
fails the `NOT NULL` constraint and nothing is persisted. -/
theorem runWebsiteTest_no_autocreated_run_counterexample :
    (runWebsiteTestIngest db1 true ⟨true, true, true⟩ none rowEx).1 = db1 ∧
    (runWebsiteTestIngest db1 true ⟨true, true, true⟩ none rowEx).2 = none := by
  constructor <;> decide

/-- C9 amended: with `TEST_RUN_ID` set to an integer naming an existing
run and the INSERT succeeding, the worker's measurement is attributed to
exactly that run; with `TEST_RUN_ID` absent the worker passes `null` as
the run id, never creates a run, and the measurement is not persisted
(NOT NULL violation), leaving both the run table and the url_tests table
unchanged. -/
theorem runWebsiteTestIngest_env_attribution
    (db : DBState) (o : StmtOracle) (row : UrlTestRow) (n : Int)
    (hrun : (db.runs.any fun r => r.id = n) = true) (hmain : o.mainOk = true) :
    ((runWebsiteTestIngest db true o (some n) row).2 = some row.id ∧
      { row with test_run_id := some n } ∈
        (runWebsiteTestIngest db true o (some n) row).1.url_tests) ∧
    ((runWebsiteTestIngest db true o none row).1.runs = db.runs ∧
      (runWebsiteTestIngest db true o none row).1.url_tests = db.url_tests ∧
      (runWebsiteTestIngest db true o none row).2 = none) := by
  constructor
  · have hok : urlTestInsertOk db { row with test_run_id := some n } = true := by
      rw [urlTestInsertOk]
      exact hrun
    have heff := (insertDomainTest_state db o { row with test_run_id := some n }).2
      ⟨hmain, hok⟩
    rw [runWebsiteTestIngest, if_pos rfl, getTestRunIdFromEnv]
    refine ⟨heff.1, ?_⟩
    rw [heff.2.1]
    exact List.mem_append_right _ (List.mem_singleton.mpr rfl)
  · have hok : ¬(o.mainOk = true ∧ urlTestInsertOk db { row with test_run_id := none } = true) := by
      rintro ⟨-, hc⟩
      rw [urlTestInsertOk] at hc
      cases hc
    have heff := (insertDomainTest_state db o { row with test_run_id := none }).1 hok
    rw [runWebsiteTestIngest, if_pos rfl, getTestRunIdFromEnv, heff]
    exact ⟨rfl, rfl, rfl⟩

/-- C9 witness: the amended theorem at the single-run database `db1` with
`TEST_RUN_ID = 1`. -/
theorem runWebsiteTestIngest_env_attribution_witness :
    ((runWebsiteTestIngest db1 true ⟨true, true, true⟩ (some 1) rowEx).2 = some rowEx.id ∧
      { rowEx with test_run_id := some 1 } ∈
        (runWebsiteTestIngest db1 true ⟨true, true, true⟩ (some 1) rowEx).1.url_tests) ∧
    ((runWebsiteTestIngest db1 true ⟨true, true, true⟩ none rowEx).1.runs = db1.runs ∧
      (runWebsiteTestIngest db1 true ⟨true, true, true⟩ none rowEx).1.url_tests =
        db1.url_tests ∧
      (runWebsiteTestIngest db1 true ⟨true, true, true⟩ none rowEx).2 = none) :=
  runWebsiteTestIngest_env_attribution db1 ⟨true, true, true⟩ rowEx 1 (by decide) rfl

/-! ## The counter invariant -/

/-- Appending one `url_tests` row grows a run's test count by one exactly
when the row belongs to it. -/
theorem testsFor_append (l : List UrlTestRow) (row : UrlTestRow) (rid : Int) :
    testsFor (l ++ [row]) rid =
      testsFor l rid + (if row.test_run_id = some rid then 1 else 0) := by
  rw [testsFor, testsFor, List.filter_append, List.length_append]
  congr 1
  by_cases h : row.test_run_id = some rid <;> simp [h]

/-- Per-row effect of the counter trigger: matching runs get exactly one
counter bumped — `passed_count` when the new row's status is `PASSED`,
`failed_count` otherwise — and non-matching runs are untouched. -/
theorem update_test_run_counts_spec (runs : List RunRow) (row : UrlTestRow) :
    (update_test_run_counts runs row).map (fun r => (r.id, r.passed_count, r.failed_count)) =
      runs.map (fun r =>
        (r.id,
         r.passed_count +
           (if row.test_run_id = some r.id ∧ row.status = TestStatus.PASSED then 1 else 0),
         r.failed_count +
           (if row.test_run_id = some r.id ∧ ¬ row.status = TestStatus.PASSED then 1
            else 0))) := by
  rw [update_test_run_counts, List.map_map]
  apply List.map_congr_left
  intro r _
  by_cases hid : row.test_run_id = some r.id
  · by_cases hst : row.status = TestStatus.PASSED <;>
      simp [hid, hst]
  · simp [hid]

/-- Every member of the trigger's output comes from an input run with the
same id and a counter sum grown by one exactly when the row matches. -/
theorem mem_update_test_run_counts (runs : List RunRow) (row : UrlTestRow) (s : RunRow)
    (h : s ∈ update_test_run_counts runs row) :
    ∃ r ∈ runs, s.id = r.id ∧
      s.passed_count + s.failed_count =
        r.passed_count + r.failed_count + (if row.test_run_id = some r.id then 1 else 0) := by
  rw [update_test_run_counts] at h
  obtain ⟨r, hr, hs⟩ := List.mem_map.mp h
  refine ⟨r, hr, ?_⟩
  subst hs
  by_cases hid : row.test_run_id = some r.id
  · by_cases hst : row.status = TestStatus.PASSED <;> simp [hid, hst] <;> omega
  · simp [hid]

/-- The trigger never changes a run's id. -/
theorem update_test_run_counts_preserves_ids (runs : List RunRow) (row : UrlTestRow)
    (r : RunRow) (h : r ∈ runs) :
    ∃ s ∈ update_test_run_counts runs row, s.id = r.id := by
  rw [update_test_run_counts]
  by_cases hid : row.test_run_id = some r.id
  · by_cases hst : row.status = TestStatus.PASSED
    · exact ⟨_, List.mem_map_of_mem _ h, by simp [hid, hst]⟩
    · exact ⟨_, List.mem_map_of_mem _ h, by simp [hid, hst]⟩
  · exact ⟨_, List.mem_map_of_mem _ h, by simp [hid]⟩

/-- Members of a list of integers are bounded by `foldr max 0`. -/
theorem le_foldr_max (l : List Int) (x : Int) (h : x ∈ l) : x ≤ l.foldr max 0 := by
  induction l with
  | nil => cases h
  | cons a t ih =>
    rw [List.foldr_cons]
    rcases List.mem_cons.mp h with h | h
    · subst h
      exact le_max_left _ _
    · exact le_trans (ih h) (le_max_right _ _)

/-- A SERIAL id handed out by `createTestRun` is strictly larger than the
id of every existing run. -/
theorem id_lt_nextRunId (db : DBState) (r : RunRow) (h : r ∈ db.runs) :
    r.id < nextRunId db := by
  have hx := le_foldr_max (db.runs.map RunRow.id) r.id (List.mem_map_of_mem _ h)
  simp only [nextRunId]
  omega

/-- Under referential integrity no existing test row can point at the
fresh run id. -/
theorem testsFor_nextRunId_eq_zero (db : DBState) (hfk : fkInv db) :
    testsFor db.url_tests (nextRunId db) = 0 := by
  rw [testsFor, List.length_eq_zero]
  apply List.filter_eq_nil_iff.mpr
  intro t ht
  simp only [decide_eq_true_eq]
  intro hc
  obtain ⟨r, hr, hid⟩ := hfk t ht
  rw [hc] at hid
  have h2 := Option.some.inj hid
  have h3 := id_lt_nextRunId db r hr
  omega

/-- One application step preserves referential integrity and the counter
invariant. -/
theorem goodState_applyOp (db : DBState) (op : DbOp)
    (h : fkInv db ∧ countersInv db) :
    fkInv (applyOp db op) ∧ countersInv (applyOp db op) := by
  obtain ⟨hfk, hcnt⟩ := h
  cases op with
  | createRun c ok t w n =>
    rw [applyOp, createTestRun]
    by_cases hc : c = true
    · rw [if_pos hc]
      by_cases hok : ok = true
      · rw [if_pos hok]
        dsimp only
        constructor
        · intro u hu
          obtain ⟨r, hr, hid⟩ := hfk u hu
          exact ⟨r, List.mem_append_left _ hr, hid⟩
        · intro r hr
          rcases List.mem_append.mp hr with hr | hr
          · exact hcnt r hr
          · rw [List.mem_singleton.mp hr]
            simpa using (testsFor_nextRunId_eq_zero db hfk).symm
      · rw [if_neg hok]
        exact ⟨hfk, hcnt⟩
    · rw [if_neg hc]
      exact ⟨hfk, hcnt⟩
  | insertTest c o row =>
    rw [applyOp, insertDomainTest]
    by_cases hc : c = true
    · rw [if_pos hc]
      by_cases hm : o.mainOk = true
      · rw [if_pos hm, insertUrlTestRow]
        by_cases hok : urlTestInsertOk db row = true
        · rw [if_pos hok]
          dsimp only
          obtain ⟨hh1, hh2, hh3, hh4⟩ := insertHttpResponses_spec
            { db with url_tests := db.url_tests ++ [row],
                      runs := update_test_run_counts db.runs row }
            o.httpOk row.id row.http_response_codes
          obtain ⟨hr1, hr2, hr3, hr4⟩ := insertResourceTypes_spec
            (insertHttpResponses
              { db with url_tests := db.url_tests ++ [row],
                        runs := update_test_run_counts db.runs row }
              o.httpOk row.id row.http_response_codes)
            o.resOk row.id row.resources_by_type
          constructor
          · intro u hu
            rw [fkInv] at *
            rw [hr2, hh2] at hu
            rw [hr1, hh1]
            rcases List.mem_append.mp hu with hu | hu
            · obtain ⟨r, hr, hid⟩ := hfk u hu
              obtain ⟨s, hs, hsid⟩ := update_test_run_counts_preserves_ids db.runs row r hr
              exact ⟨s, hs, by rw [hsid]; exact hid⟩
            · rw [List.mem_singleton.mp hu]
              rw [urlTestInsertOk] at hok
              cases hrow : row.test_run_id with
              | none => rw [hrow] at hok; cases hok
              | some rid =>
                rw [hrow] at hok
                obtain ⟨r, hr, hrid⟩ := List.any_eq_true.mp hok
                obtain ⟨s, hs, hsid⟩ := update_test_run_counts_preserves_ids db.runs row r hr
                refine ⟨s, hs, ?_⟩
                rw [hsid]
                have : r.id = rid := by simpa using hrid
                rw [this]
          · intro s hs
            rw [countersInv] at *
            rw [hr1, hh1] at hs
            rw [hr2, hh2]
            obtain ⟨r, hr, hsid, hsum⟩ := mem_update_test_run_counts db.runs row s hs
            rw [hsid, hsum, testsFor_append, hcnt r hr]
        · rw [if_neg hok]
          exact ⟨hfk, hcnt⟩
      · rw [if_neg hm]
        exact ⟨hfk, hcnt⟩
    · rw [if_neg hc]
      exact ⟨hfk, hcnt⟩
  | updateRun c rid st dur =>
    rw [applyOp, updateTestRun]
    by_cases hcond : c = true ∧ rid ≠ 0
    · rw [if_pos hcond]
      dsimp only
      constructor
      · intro u hu
        obtain ⟨r, hr, hid⟩ := hfk u hu
        by_cases hrid : r.id = rid
        · refine ⟨_, List.mem_map_of_mem _ hr, ?_⟩
          rw [if_pos hrid]
          exact hid
        · refine ⟨_, List.mem_map_of_mem _ hr, ?_⟩
          rw [if_neg hrid]
          exact hid
      · intro s hs
        obtain ⟨r, hr, hsr⟩ := List.mem_map.mp hs
        subst hsr
        by_cases hrid : r.id = rid
        · rw [if_pos hrid]
          simpa using hcnt r hr
        · rw [if_neg hrid]
          exact hcnt r hr
    · rw [if_neg hcond]
      exact ⟨hfk, hcnt⟩

/-- Every state reachable by application operations from the initialized
schema keeps referential integrity and the counter invariant. -/
theorem goodState_applyOps (ops : List DbOp) (db : DBState)
    (h : fkInv db ∧ countersInv db) :
    fkInv (applyOps db ops) ∧ countersInv (applyOps db ops) := by
  induction ops generalizing db with
  | nil => exact h
  | cons op rest ih =>
    rw [applyOps, List.foldl_cons]
    exact ih (applyOp db op) (goodState_applyOp db op h)

/-- C2.  The counter trigger bumps `passed_count` exactly when the
inserted row's status is `PASSED` and `failed_count` otherwise, and the
counters are maintained only by this trigger (application operations are
`createTestRun`, `insertDomainTest` and `updateTestRun`, none of which
writes a counter itself): in every database state reachable from the
initialized schema, `passed_count + failed_count` equals the number of
`url_tests` rows owned by the run. -/
theorem counter_trigger_invariant :
    (∀ (runs : List RunRow) (row : UrlTestRow),
      (update_test_run_counts runs row).map (fun r => (r.id, r.passed_count, r.failed_count)) =
        runs.map (fun r =>
          (r.id,
           r.passed_count +
             (if row.test_run_id = some r.id ∧ row.status = TestStatus.PASSED then 1 else 0),
           r.failed_count +
             (if row.test_run_id = some r.id ∧ ¬ row.status = TestStatus.PASSED then 1
              else 0)))) ∧
    ∀ (ops : List DbOp) (r : RunRow), r ∈ (applyOps emptyDB ops).runs →
      r.passed_count + r.failed_count = testsFor (applyOps emptyDB ops).url_tests r.id := by
  refine ⟨update_test_run_counts_spec, ?_⟩
  intro ops r hr
  have hinit : fkInv emptyDB ∧ countersInv emptyDB := by
    constructor
    · intro t ht
      cases ht
    · intro s hs
      cases hs
  exact (goodState_applyOps ops emptyDB hinit).2 r hr

/-- C2 witness: after creating a run and ingesting one PASSED measurement
(`ops0`), the resulting run has `passed_count + failed_count = 1`, equal
to its number of url_tests rows. -/
theorem counter_trigger_invariant_witness :
    runAfterOps0 ∈ (applyOps emptyDB ops0).runs ∧
    runAfterOps0.passed_count + runAfterOps0.failed_count =
      testsFor (applyOps emptyDB ops0).url_tests runAfterOps0.id :=
  ⟨by decide, counter_trigger_invariant.2 ops0 runAfterOps0 (by decide)⟩

end Pumpkin
